import Mathlib

/-!
# Verification of the geosoup raster core (`src/geosoup/raster.py`)

This file gives a shallow embedding of the tile-grid, coordinate-transform,
tile-retrieval, extraction-reduction and composite-reduction logic of the
`Raster` and `MultiRaster` classes, and proves (or refutes) the specified
properties about them.

Conventions of the embedding:
* Python floats are modelled exactly by `ℚ` extended with the non-finite
  tags `nan`, `inf`, `ninf` (type `Val`); pixel indices are `ℕ`/`ℤ`.
* numpy/GDAL calls are collaborators; the mathematical meaning of the
  specific numpy reductions used by the source (`np.mean`, `np.median`,
  `np.min`, `np.max`, `np.percentile`, elementwise `!=`/`isnan`/`isinf`)
  is embedded directly.
* Exceptions are modelled with `Except String`.
-/

namespace Geosoup

/-! ## Values: Python floats with non-finite tags -/

/-- A raster cell value: a finite rational, not-a-number, `+inf` or `-inf`. -/
inductive Val where
  | q (x : ℚ)
  | nan
  | inf
  | ninf
  deriving DecidableEq, Repr

/-- `np.isnan`. -/
def Val.isnan : Val → Bool
  | .nan => true
  | _ => false

/-- `np.isinf` (true for both infinities). -/
def Val.isinf : Val → Bool
  | .inf => true
  | .ninf => true
  | _ => false

/-- `np.isfinite`. -/
def Val.isFinite : Val → Bool
  | .q _ => true
  | _ => false

/-- Python `!=` on float values: `nan` compares unequal to everything,
including itself. -/
def pyNe : Val → Val → Bool
  | .nan, _ => true
  | _, .nan => true
  | .q a, .q b => decide (a ≠ b)
  | .inf, .inf => false
  | .ninf, .ninf => false
  | _, _ => true

/-- IEEE addition on modelled values. -/
def Val.add : Val → Val → Val
  | .nan, _ => .nan
  | _, .nan => .nan
  | .inf, .ninf => .nan
  | .ninf, .inf => .nan
  | .inf, _ => .inf
  | _, .inf => .inf
  | .ninf, _ => .ninf
  | _, .ninf => .ninf
  | .q a, .q b => .q (a + b)

/-- Division of a value by a natural count; `0/0` is `nan` as in numpy. -/
def Val.divNat (v : Val) (n : ℕ) : Val :=
  if n = 0 then .nan
  else match v with
    | .q a => .q (a / (n : ℚ))
    | .nan => .nan
    | .inf => .inf
    | .ninf => .ninf

/-- Sum of a list of values (numpy summation semantics). -/
def valSum (xs : List Val) : Val := xs.foldr Val.add (.q 0)

/-- `np.mean` of a 1-D array: sum divided by length; the mean of an empty
array is `nan` (numpy emits only a runtime warning). -/
def npMean (xs : List Val) : Val := (valSum xs).divNat xs.length

/-! ## CoordinateTransform: `Raster.get_coords` / `Raster.get_locations` -/

/-- `Raster.get_coords` on a single `(x, y)` pair: pixel to world coordinates.
`pixel_center` adds half a pixel in each axis. -/
def getCoordsXY (xy : ℚ × ℚ) (pixel_size : ℚ × ℚ) (tie_point : ℚ × ℚ)
    (pixel_center : Bool) : ℚ × ℚ :=
  let add_const : ℚ × ℚ :=
    if pixel_center then (pixel_size.1 / 2, pixel_size.2 / 2) else (0, 0)
  (xy.1 * pixel_size.1 + tie_point.1 + add_const.1,
   xy.2 * pixel_size.2 + tie_point.2 + add_const.2)

/-- `Raster.get_coords` (static method, list form). -/
def getCoords (xy_list : List (ℚ × ℚ)) (pixel_size : ℚ × ℚ)
    (tie_point : ℚ × ℚ) (pixel_center : Bool) : List (ℚ × ℚ) :=
  xy_list.map (fun xy => getCoordsXY xy pixel_size tie_point pixel_center)

/-- `Raster.get_locations`: world to pixel coordinates by floor division
(Python `//` on floats floors toward `-∞`); a `None` coordinate maps to the
`[None, None]` sentinel, modelled with `Option`. -/
def getLocations (coords_list : List (Option (ℚ × ℚ))) (pixel_size : ℚ × ℚ)
    (tie_point : ℚ × ℚ) : List (Option (ℚ × ℚ)) :=
  coords_list.map (fun c =>
    match c with
    | none => none
    | some coord =>
        some (((⌊(coord.1 - tie_point.1) / pixel_size.1⌋ : ℤ) : ℚ),
              ((⌊(coord.2 - tie_point.2) / pixel_size.2⌋ : ℤ) : ℚ)))

/-! ## TileGrid: `Raster.make_tile_grid` -/

/-- The 6-coefficient GDAL affine transform
`(origin-x, pixel-width, row-rot, origin-y, col-rot, pixel-height)`. -/
structure GeoTransform where
  t0 : ℚ
  t1 : ℚ
  t2 : ℚ
  t3 : ℚ
  t4 : ℚ
  t5 : ℚ
  deriving DecidableEq, Repr

/-- One entry of `Raster.tile_grid`: the dict built by `make_tile_grid`. -/
structure TileDesc where
  x : ℕ
  y : ℕ
  cols : ℕ
  rows : ℕ
  tiePoint : ℚ × ℚ
  boundCoords : List (ℚ × ℚ)
  firstPixel : ℕ × ℕ
  deriving DecidableEq, Repr

/-- Python `range(start, stop, step)` for a positive step. -/
def pyRange (start stop step : ℕ) : List ℕ :=
  (List.range ((stop - start + step - 1) / step)).map (fun k => start + k * step)

/-- One tile descriptor of `make_tile_grid`: width/height are clipped to the
remaining extent at the right/bottom edge, the tie point and footprint
polygon are computed with corner (not center) semantics. -/
def mkTileDesc (gt : GeoTransform) (xmin ymin xmax ymax tw th x y : ℕ) :
    TileDesc :=
  let rows : ℕ := if y + th < ymax then th else ymax - y
  let cols : ℕ := if x + tw < xmax then tw else xmax - x
  let tie := getCoordsXY ((x : ℚ), (y : ℚ)) (gt.t1, gt.t5) (gt.t0, gt.t3) false
  { x := x, y := y, cols := cols, rows := rows,
    tiePoint := tie,
    boundCoords := [tie,
                    (tie.1 + gt.t1 * (cols : ℚ), tie.2),
                    (tie.1 + gt.t1 * (cols : ℚ), tie.2 + gt.t5 * (rows : ℚ)),
                    (tie.1, tie.2 + gt.t5 * (rows : ℚ)),
                    tie],
    firstPixel := (xmin, ymin) }

/-- The list of tile descriptors appended by one `make_tile_grid` call over
pixel bounds `[xmin, xmax) × [ymin, ymax)` (row-major: outer loop over `y`,
inner loop over `x`). -/
def makeTileGridList (gt : GeoTransform) (tw th xmin xmax ymin ymax : ℕ) :
    List TileDesc :=
  (pyRange ymin ymax th).flatMap (fun y =>
    (pyRange xmin xmax tw).map (fun x =>
      mkTileDesc gt xmin ymin xmax ymax tw th x y))

/-- `make_tile_grid` with no bounding region on a raster of `W` columns and
`H` rows: `get_pixel_bounds(None)` yields `(0, W, 0, H)`. -/
def makeTileGridFull (gt : GeoTransform) (W H tw th : ℕ) : List TileDesc :=
  makeTileGridList gt tw th 0 W 0 H

/-- A pixel `(i, j)` lies in the window of tile `t`. -/
def covers (t : TileDesc) (i j : ℕ) : Prop :=
  t.x ≤ i ∧ i < t.x + t.cols ∧ t.y ≤ j ∧ j < t.y + t.rows

instance (t : TileDesc) (i j : ℕ) : Decidable (covers t i j) := by
  unfold covers; infer_instance

/-- A concrete affine transform (30 m pixels, north-up) used by witnesses. -/
def sampleTransform : GeoTransform :=
  { t0 := 443000, t1 := 30, t2 := 0, t3 := 4560000, t4 := 0, t5 := -30 }

/-! ## TileReader: `Raster.get_tile` -/

/-- The window arithmetic of `Raster.get_tile`: from `block_coords`
(produced by `make_tile_grid` as `(x, y, cols, rows)`), the raster extent
and `edge_buffer`, compute the `new_block_coords` list
`[xoff, yoff, xsize, ysize]` passed to `ReadAsArray`.  The source unpacks
`upperleft_x, upperleft_y, tile_rows, tile_cols = block_coords`, so its
variable `tile_rows` holds the third tuple component and `tile_cols` the
fourth, exactly as transcribed here. -/
def getTileWindow (ras_rows ras_cols : ℤ) (block_coords : ℤ × ℤ × ℤ × ℤ)
    (edge_buffer : ℤ) : ℤ × ℤ × ℤ × ℤ :=
  let upperleft_x := block_coords.1
  let upperleft_y := block_coords.2.1
  let tile_rows := block_coords.2.2.1
  let tile_cols := block_coords.2.2.2
  let pd : ℤ × ℤ × ℤ × ℤ :=
    if 0 < edge_buffer then
      (if upperleft_x < edge_buffer then edge_buffer - upperleft_x else 0,
       if upperleft_y < edge_buffer then edge_buffer - upperleft_y else 0,
       if ras_cols - upperleft_x - tile_cols + 1 < edge_buffer
         then ras_cols - upperleft_x - tile_cols + 1 else 0,
       if ras_rows - upperleft_y - tile_rows + 1 < edge_buffer
         then ras_rows - upperleft_y - tile_rows + 1 else 0)
    else (0, 0, 0, 0)
  (upperleft_x - edge_buffer + pd.1,
   upperleft_y - edge_buffer + pd.2.1,
   tile_rows + (2 * edge_buffer - pd.2.1 + pd.2.2.2),
   tile_cols + (2 * edge_buffer - pd.1 + pd.2.2.1))

/-- An open raster datasource as seen by `get_tile`: shape metadata plus the
collaborator's windowed read, `pix gdalBand row col` (GDAL band indices start
at 1). -/
structure SrcRaster where
  nbands : ℕ
  rows : ℤ
  cols : ℤ
  nodatavalue : Option Val
  bnames : List String
  pix : ℕ → ℤ → ℤ → Val

/-- `get_tile`'s resolution of `nan_replacement`: the explicit argument, else
the raster's declared no-data value, else `0`. -/
def getTileNanReplacement (ras : SrcRaster) (nan_replacement : Option Val) :
    Val :=
  match nan_replacement with
  | none =>
      match ras.nodatavalue with
      | none => .q 0
      | some nd => nd
  | some r => r

/-- `get_tile`'s band-list default: `range(1, shape[0] + 1)`. -/
def getTileBands (ras : SrcRaster) (bands : Option (List ℕ)) : List ℕ :=
  bands.getD ((List.range ras.nbands).map (· + 1))

/-- Elementwise effect of `tile_arr[np.isnan(..)] = r; tile_arr[np.isinf(..)] = r`. -/
def sanitizeVal (repl v : Val) : Val := if v.isnan || v.isinf then repl else v

/-- The raw (pre-sanitization) value of `get_tile`'s array at band slot `jj`
and window position `(i, j)`: the collaborator read at the computed window. -/
def rawTileVal (ras : SrcRaster) (bands : Option (List ℕ))
    (block_coords : ℤ × ℤ × ℤ × ℤ) (edge_buffer : ℤ) :
    ℕ → ℤ → ℤ → Val :=
  fun jj i j =>
    let w := getTileWindow ras.rows ras.cols block_coords edge_buffer
    ras.pix ((getTileBands ras bands).getD jj 0) (w.2.1 + i) (w.1 + j)

/-- Value semantics of `Raster.get_tile`: a single-band request returns the
raw read; a multi-band request sanitizes non-finite values when
`finite_only`. -/
def getTileVals (ras : SrcRaster) (bands : Option (List ℕ))
    (block_coords : ℤ × ℤ × ℤ × ℤ) (finite_only : Bool) (edge_buffer : ℤ)
    (nan_replacement : Option Val) : ℕ → ℤ → ℤ → Val :=
  let raw := rawTileVal ras bands block_coords edge_buffer
  if (getTileBands ras bands).length = 1 then
    fun _ i j => raw 0 i j
  else if finite_only then
    fun jj i j =>
      sanitizeVal (getTileNanReplacement ras nan_replacement) (raw jj i j)
  else raw

/-! ## numpy reduction collaborators used by `composite` and `extract_geom` -/

/-- `sub` is an initial segment of `hay`. -/
def charsStartWith : List Char → List Char → Bool
  | [], _ => true
  | _ :: _, [] => false
  | a :: as, b :: bs => a = b && charsStartWith as bs

/-- `sub` occurs somewhere inside `hay`. -/
def charsContain (hay sub : List Char) : Bool :=
  match hay with
  | [] => sub.isEmpty
  | _ :: rest => charsStartWith sub hay || charsContain rest sub

/-- Substring test (Python `in` on strings). -/
def strContains (s sub : String) : Bool := charsContain s.toList sub.toList

/-- Split a character list at every occurrence of `c`
(Python `str.split(sep)` for a one-character separator). -/
def splitOnChar (c : Char) : List Char → List (List Char)
  | [] => [[]]
  | a :: as =>
      let r := splitOnChar c as
      if a = c then [] :: r
      else
        match r with
        | [] => [[a]]
        | h :: t => (a :: h) :: t

/-- A decimal digit's value. -/
def charDigit (c : Char) : Option ℕ :=
  if '0' ≤ c ∧ c ≤ '9' then some (c.toNat - '0'.toNat) else none

def parseNatAux : List Char → ℕ → Option ℕ
  | [], acc => some acc
  | c :: cs, acc =>
      match charDigit c with
      | some d => parseNatAux cs (acc * 10 + d)
      | none => none

/-- Python `int(str)` on a plain decimal string; `none` is `ValueError`. -/
def parseNatChars (cs : List Char) : Option ℕ :=
  if cs.isEmpty then none else parseNatAux cs 0

/-- IEEE negation. -/
def Val.neg : Val → Val
  | .q a => .q (-a)
  | .nan => .nan
  | .inf => .ninf
  | .ninf => .inf

/-- IEEE subtraction. -/
def Val.sub (a b : Val) : Val := a.add b.neg

/-- Multiplication by an exact rational scalar. -/
def Val.mulQ (v : Val) (c : ℚ) : Val :=
  match v with
  | .q a => .q (a * c)
  | .nan => .nan
  | .inf => if 0 < c then .inf else if c < 0 then .ninf else .nan
  | .ninf => if 0 < c then .ninf else if c < 0 then .inf else .nan

/-- Total order used to sort nan-free value lists (`-inf < finite < inf`). -/
def valLe : Val → Val → Bool
  | .nan, _ => true
  | _, .nan => false
  | .ninf, _ => true
  | _, .ninf => false
  | .q a, .q b => decide (a ≤ b)
  | .q _, .inf => true
  | .inf, .q _ => false
  | .inf, .inf => true

/-- Binary minimum under `valLe`. -/
def valMin (a b : Val) : Val := if valLe a b then a else b

/-- Binary maximum under `valLe`. -/
def valMax (a b : Val) : Val := if valLe a b then b else a

/-- Insertion into a `valLe`-sorted list. -/
def insertSorted (v : Val) : List Val → List Val
  | [] => [v]
  | x :: xs => if valLe v x then v :: x :: xs else x :: insertSorted v xs

/-- Sort under `valLe` (numpy's sort on nan-free data). -/
def valSort (xs : List Val) : List Val := xs.foldr insertSorted []

/-- `np.median` of a 1-D array: `nan` if any entry is `nan` or the array is
empty, else the middle of the sorted data (average of the two middles for
even length). -/
def npMedian (xs : List Val) : Val :=
  if xs.length = 0 then .nan
  else if xs.any Val.isnan then .nan
  else
    let s := valSort xs
    let n := xs.length
    if n % 2 = 1 then s.getD (n / 2) .nan
    else ((s.getD (n / 2 - 1) .nan).add (s.getD (n / 2) .nan)).divNat 2

/-- `np.min` of a 1-D array: raises on an empty array, `nan` if any entry is
`nan`. -/
def npMin (xs : List Val) : Except String Val :=
  match xs with
  | [] => .error "zero-size array to reduction operation"
  | x :: rest =>
      if (x :: rest).any Val.isnan then .ok .nan
      else .ok (rest.foldl valMin x)

/-- `np.max` of a 1-D array: raises on an empty array, `nan` if any entry is
`nan`. -/
def npMax (xs : List Val) : Except String Val :=
  match xs with
  | [] => .error "zero-size array to reduction operation"
  | x :: rest =>
      if (x :: rest).any Val.isnan then .ok .nan
      else .ok (rest.foldl valMax x)

/-- `np.percentile` of a 1-D array with the default linear interpolation:
raises on an empty array, `nan` if any entry is `nan`. -/
def npPercentile (p : ℚ) (xs : List Val) : Except String Val :=
  if xs.length = 0 then .error "index -1 is out of bounds"
  else if xs.any Val.isnan then .ok .nan
  else
    let s := valSort xs
    let n := xs.length
    let h : ℚ := ((n : ℚ) - 1) * p / 100
    let lo : ℕ := (⌊h⌋).toNat
    let hi : ℕ := min (lo + 1) (n - 1)
    let xlo := s.getD lo .nan
    let xhi := s.getD hi .nan
    .ok (xlo.add ((xhi.sub xlo).mulQ (h - (lo : ℚ))))

/-! ## CompositeReducer: `MultiRaster.composite` per-pixel reduction -/

/-- The per-pixel reduction dispatched by `MultiRaster.composite` on the
stack of per-layer values at one output pixel: values equal to the layer
stack's no-data value are excluded (`x[x != lras.nodatavalue]`), then the
selected numpy reduction is applied; an unknown `composite_type` raises
`ValueError('Unknown composite option')`. -/
def compositePixel (composite_type : String) (nodatavalue : Val)
    (stack : List Val) : Except String Val :=
  let fstack := stack.filter (fun v => pyNe v nodatavalue)
  if composite_type = "mean" then .ok (npMean fstack)
  else if composite_type = "median" then .ok (npMedian fstack)
  else if composite_type = "min" then npMin fstack
  else if composite_type = "max" then npMax fstack
  else if strContains composite_type "pctl" then
    match parseNatChars ((splitOnChar '_' composite_type.toList).getD 1 []) with
    | some p => npPercentile (p : ℚ) fstack
    | none => .error "invalid literal for int()"
  else .error "Unknown composite option"

/-! ## GeometryExtractor: accumulation and reduction in `Raster.extract_geom`

The geometric collaborators (WKT parsing, polygon intersection, all-touched
rasterization) are external; their per-tile output — the list of new
value rows and coordinate rows each geometry receives on each tile — is
taken as input data here.  What is embedded is exactly the accumulation
(`out_geom_extract[id]['values'] += ...`) and the reducer block of
`extract_geom`, including its position *inside* the per-tile loop. -/

/-- The run-time shape of one geometry's `'values'` (or `'coordinates'`)
entry: initially a list of rows; `np.mean(..., axis=0).tolist()` turns it
into a flat vector, and a second application into a bare scalar.  `err`
stands for a numpy failure (ragged nested sequence or empty reduction). -/
inductive Acc where
  | rows (rs : List (List Val))
  | vec (v : List Val)
  | scalar (s : Val)
  | err
  deriving DecidableEq, Repr

/-- Python `+= new_rows` on an accumulated entry.  Appending rows to an
already-collapsed entry produces a ragged nested sequence, failing the next
numpy reduction (`err`). -/
def Acc.append : Acc → List (List Val) → Acc
  | .rows rs, new => .rows (rs ++ new)
  | .vec v, new => if new.isEmpty then .vec v else .err
  | .scalar s, new => if new.isEmpty then .scalar s else .err
  | .err, _ => .err

/-- All rows of a 2-D array have the leading row's length. -/
def rectangular (rs : List (List Val)) : Bool :=
  match rs with
  | [] => true
  | r :: rest => rest.all (fun r' => r'.length = r.length)

/-- Column `j` of a 2-D array. -/
def column (rs : List (List Val)) (j : ℕ) : List Val :=
  rs.map (fun r => r.getD j .nan)

/-- Apply a 1-D reduction down the columns (numpy `axis=0` on a 2-D array,
whose width is the leading row's length). -/
def colwise (f : List Val → Val) (rs : List (List Val)) : List Val :=
  (List.range (rs.headD []).length).map (fun j => f (column rs j))

/-- `np.mean(acc, axis=0).tolist()` on the possible run-time shapes. -/
def npMeanAxis0 : Acc → Acc
  | .rows [] => .scalar .nan
  | .rows rs => if rectangular rs then .vec (colwise npMean rs) else .err
  | .vec v => .scalar (npMean v)
  | .scalar s => .scalar s
  | .err => .err

/-- `np.median(acc, axis=0).tolist()`. -/
def npMedianAxis0 : Acc → Acc
  | .rows [] => .scalar .nan
  | .rows rs => if rectangular rs then .vec (colwise npMedian rs) else .err
  | .vec v => .scalar (npMedian v)
  | .scalar s => .scalar s
  | .err => .err

/-- `np.min(acc, axis=0).tolist()`; empty data raises. -/
def npMinAxis0 : Acc → Acc
  | .rows [] => .err
  | .rows rs =>
      if rectangular rs then
        .vec (colwise (fun c => (npMin c).toOption.getD .nan) rs)
      else .err
  | .vec [] => .err
  | .vec v => .scalar ((npMin v).toOption.getD .nan)
  | .scalar s => .scalar s
  | .err => .err

/-- `np.max(acc, axis=0).tolist()`; empty data raises. -/
def npMaxAxis0 : Acc → Acc
  | .rows [] => .err
  | .rows rs =>
      if rectangular rs then
        .vec (colwise (fun c => (npMax c).toOption.getD .nan) rs)
      else .err
  | .vec [] => .err
  | .vec v => .scalar ((npMax v).toOption.getD .nan)
  | .scalar s => .scalar s
  | .err => .err

/-- `np.percentile(acc, [p], axis=0).tolist()` — note the extra list level
produced by the `[pctl]` argument; empty data raises. -/
def npPercentileAxis0 (p : ℚ) : Acc → Acc
  | .rows [] => .err
  | .rows rs =>
      if rectangular rs then
        .rows [colwise (fun c => (npPercentile p c).toOption.getD .nan) rs]
      else .err
  | .vec [] => .err
  | .vec v => .vec [(npPercentile p v).toOption.getD .nan]
  | .scalar s => .vec [s]
  | .err => .err

/-- The `if reducer == ...` chain of `extract_geom` applied to one
accumulated entry; `none` means the reducer keyword was not recognized
(the `else` branch that only warns). -/
def applyReducer (reducer : String) (a : Acc) : Option Acc :=
  if reducer = "mean" then some (npMeanAxis0 a)
  else if reducer = "median" then some (npMedianAxis0 a)
  else if reducer = "min" then some (npMinAxis0 a)
  else if reducer = "max" then some (npMaxAxis0 a)
  else if strContains reducer "percentile" then
    match parseNatChars ((splitOnChar '_' reducer.toList).getD 1 []) with
    | some p => some (npPercentileAxis0 (p : ℚ) a)
    | none => some .err
  else none

/-- One geometry's accumulated extraction state. -/
structure GeomAcc where
  values : Acc
  coordinates : Acc
  deriving DecidableEq, Repr

/-- The reducer block of `extract_geom` as executed once per tile: iterate
over every geometry entry, collapse values and coordinates for a recognized
reducer, and warn (at most once per pass, via the `warned` flag) for an
unrecognized one. -/
def tileReducerPass (reducer : Option String) (gs : List GeomAcc)
    (warnCount : ℕ) : List GeomAcc × ℕ :=
  match reducer with
  | none => (gs, warnCount)
  | some r =>
      let res := gs.foldl (fun (st : List GeomAcc × Bool) g =>
        match applyReducer r g.values, applyReducer r g.coordinates with
        | some v, some c =>
            (st.1 ++ [{ values := v, coordinates := c }], st.2)
        | _, _ => (st.1 ++ [g], true)) ([], false)
      (res.1, warnCount + (if res.2 then 1 else 0))

/-- One iteration of the `for tile in self.tile_grid` loop: append the new
rows each geometry received on this tile, then (as in the source, inside
the loop) run the reducer block. -/
def extractStep (reducer : Option String) (st : List GeomAcc × ℕ)
    (tileData : List (List (List Val) × List (List Val))) :
    List GeomAcc × ℕ :=
  let appended := List.zipWith
    (fun (g : GeomAcc) (d : List (List Val) × List (List Val)) =>
      { values := g.values.append d.1, coordinates := g.coordinates.append d.2 })
    st.1 tileData
  tileReducerPass reducer appended st.2

/-- The accumulation-and-reduction behaviour of `extract_geom` over a tile
grid: `tiles.get t |>.get g` is the pair (new value rows, new coordinate
rows) that the rasterize-and-mask collaborator yields for geometry `g` on
tile `t`.  Returns the final per-geometry entries and the number of
`warnings.warn` calls issued. -/
def extractGeomAccum (nGeoms : ℕ)
    (tiles : List (List (List (List Val) × List (List Val))))
    (reducer : Option String) : List GeomAcc × ℕ :=
  tiles.foldl (extractStep reducer)
    (List.replicate nGeoms { values := .rows [], coordinates := .rows [] }, 0)

/-- Modelled from the spec (§4.5 step 6), for comparison with
`extractGeomAccum`: accumulate the raw rows over all tiles first, then
collapse each geometry's lists exactly once after the tile loop. -/
def specExtractReduceOnce (nGeoms : ℕ)
    (tiles : List (List (List (List Val) × List (List Val))))
    (reducer : Option String) : List GeomAcc × ℕ :=
  let raw := extractGeomAccum nGeoms tiles none
  tileReducerPass reducer raw.1 raw.2

/-! ## RasterHandle state: `Raster.initialize`, `make_tile_grid`,
`get_next_tile` band resolution -/

/-- The metadata a datasource exposes to `initialize`. -/
structure SrcMeta where
  nbands : ℕ
  nrows : ℕ
  ncols : ℕ
  transform : GeoTransform
  crs : String
  bnames : List String
  nodata : Option Val
  deriving DecidableEq, Repr

/-- The mutable fields of a `Raster` handle touched by the embedded
operations. -/
structure RasterState where
  init : Bool
  shape : Option (ℕ × ℕ × ℕ)
  transform : Option GeoTransform
  bnames : List String
  crs : Option String
  nodatavalue : Option Val
  tile_grid : List TileDesc
  ntiles : Option ℕ
  deriving DecidableEq, Repr

/-- A handle as built by `Raster.__init__`. -/
def freshRaster : RasterState :=
  { init := false, shape := none, transform := none, bnames := [],
    crs := none, nodatavalue := none, tile_grid := [], ntiles := none }

/-- `Raster.initialize` (metadata path, `get_array=False`): sets
`init = True` and (re)reads shape, transform, band names, CRS and no-data
from the datasource.  It fails only when no datasource is available; there
is no re-initialization guard, and the class defines no reset method. -/
def initializeRaster (datasource : Option SrcMeta) (s : RasterState) :
    Except String RasterState :=
  match datasource with
  | none => .error "No datasource found"
  | some m =>
      .ok { s with init := true,
                   bnames := m.bnames,
                   shape := some (m.nbands, m.nrows, m.ncols),
                   transform := some m.transform,
                   crs := some m.crs,
                   nodatavalue := m.nodata }

/-- `Raster.make_tile_grid` with no bounding region as a state update: the
new descriptors are **appended** to `self.tile_grid` (which is never
cleared) and `ntiles` is set to the resulting total length. -/
def makeTileGridState (tw th : ℕ) (s : RasterState) : RasterState :=
  let shp := s.shape.getD (0, 0, 0)
  let gt := s.transform.getD
    { t0 := 0, t1 := 0, t2 := 0, t3 := 0, t4 := 0, t5 := 0 }
  let grid := s.tile_grid ++ makeTileGridFull gt shp.2.2 shp.2.1 tw th
  { s with tile_grid := grid, ntiles := some grid.length }

/-- The `bands` argument forms accepted by `get_next_tile`. -/
inductive BandsArg where
  | noneArg
  | intArg (i : ℤ)
  | strsArg (names : List String)
  | numsArg (is : List ℤ)
  deriving DecidableEq, Repr

/-- Python `list.index`: position of the first occurrence, or `ValueError`. -/
def listIndex (l : List String) (nm : String) : Except String ℕ :=
  match l.findIdx? (fun s => s = nm) with
  | some i => .ok i
  | none => .error "ValueError: not in list"

/-- The band-selection normalization of `get_next_tile` (the list handed on
to `get_tile`, whose `GetRasterBand` indices are 1-based): `None` becomes
`range(1, nbands + 1)`; a scalar becomes `[int(bands)]`; a list of names
becomes the `bnames.index` positions (no `+1`); a list of numbers becomes
`[int(ib + 1), ...]`. -/
def getNextTileBands (nbands : ℕ) (bnames : List String) (bands : BandsArg) :
    Except String (List ℤ) :=
  match bands with
  | .noneArg => .ok ((List.range nbands).map (fun i => (i : ℤ) + 1))
  | .intArg i => .ok [i]
  | .strsArg names =>
      (names.mapM (fun nm => listIndex bnames nm)).map
        (fun l => l.map (fun i => (i : ℤ)))
  | .numsArg is => .ok (is.map (fun ib => ib + 1))

/-- `GetRasterBand(b)` succeeds exactly for `1 ≤ b ≤ nbands`. -/
def validGdalBand (nbands : ℕ) (b : ℤ) : Bool :=
  decide (1 ≤ b) && decide (b ≤ (nbands : ℤ))

/-! ## Concrete instances used by witnesses and counterexamples -/

/-- Metadata of a concrete 2-band 100×100 datasource. -/
def sampleMeta : SrcMeta :=
  { nbands := 2, nrows := 100, ncols := 100, transform := sampleTransform,
    crs := "EPSG:32633", bnames := ["red", "green"],
    nodata := some (.q (-9999)) }

/-- The handle state `initialize` produces from `sampleMeta`. -/
def sampleInitialized : RasterState :=
  { init := true, shape := some (2, 100, 100),
    transform := some sampleTransform, bnames := ["red", "green"],
    crs := some "EPSG:32633", nodatavalue := some (.q (-9999)),
    tile_grid := [], ntiles := none }

/-- A concrete 2-band 4×4 source holding a `nan` and an `inf` at known
positions. -/
def witnessRaster : SrcRaster :=
  { nbands := 2, rows := 4, cols := 4, nodatavalue := some (.q (-9999)),
    bnames := ["red", "green"],
    pix := fun b i j =>
      if b = 1 ∧ i = 0 ∧ j = 0 then .nan
      else if b = 2 ∧ i = 1 ∧ j = 1 then .inf
      else .q ((b : ℚ) + (i : ℚ) + (j : ℚ)) }

/-- Collaborator output for one geometry over a two-tile grid: one value row
per tile (used against the `bogus` reducer). -/
def twoTileData : List (List (List (List Val) × List (List Val))) :=
  [[([[.q 1, .q 2]], [])], [([[.q 3, .q 4]], [])]]

/-- Collaborator output for one geometry over a two-tile grid: two 2-band
value rows on the first tile, nothing on the second (used against the
`mean` reducer). -/
def meanTileData : List (List (List (List Val) × List (List Val))) :=
  [[([[.q 1, .q 3], [.q 5, .q 7]], [])], [([], [])]]

/-! # Theorems -/

/-! ### Helper lemmas for the tile grid -/

theorem lt_ceilDiv_iff {k n s : ℕ} (hs : 0 < s) :
    k < (n + s - 1) / s ↔ k * s < n := by
  rw [Nat.lt_iff_add_one_le, Nat.le_div_iff_mul_le hs, Nat.succ_mul]
  omega

theorem mem_pyRange_zero {s n v : ℕ} (hs : 0 < s) :
    v ∈ pyRange 0 n s ↔ ∃ k, v = k * s ∧ v < n := by
  unfold pyRange
  simp only [List.mem_map, List.mem_range]
  constructor
  · rintro ⟨k, hk, rfl⟩
    exact ⟨k, by omega, by have := (lt_ceilDiv_iff hs).mp (by simpa using hk); omega⟩
  · rintro ⟨k, rfl, hv⟩
    exact ⟨k, (lt_ceilDiv_iff hs).mpr (by omega), by omega⟩

theorem length_pyRange_zero (n s : ℕ) :
    (pyRange 0 n s).length = (n + s - 1) / s := by
  simp [pyRange]

theorem mem_makeTileGridFull {gt : GeoTransform} {W H tw th : ℕ}
    {t : TileDesc} :
    t ∈ makeTileGridFull gt W H tw th ↔
      ∃ y ∈ pyRange 0 H th, ∃ x ∈ pyRange 0 W tw,
        t = mkTileDesc gt 0 0 W H tw th x y := by
  unfold makeTileGridFull makeTileGridList
  simp only [List.mem_flatMap, List.mem_map]
  constructor
  · rintro ⟨y, hy, x, hx, rfl⟩
    exact ⟨y, hy, x, hx, rfl⟩
  · rintro ⟨y, hy, x, hx, rfl⟩
    exact ⟨y, hy, x, hx, rfl⟩

theorem length_flatMap_map {α β γ : Type} (l : List α) (l' : List β)
    (f : α → β → γ) :
    (l.flatMap fun a => l'.map (f a)).length = l.length * l'.length := by
  induction l with
  | nil => simp
  | cons a t ih => simp [ih, Nat.succ_mul, Nat.add_comm]

theorem tile_of_covering {W tw x k i : ℕ} (htw : 0 < tw) (hx : x = k * tw)
    (hxW : x < W) (hle : x ≤ i)
    (hlt : i < x + (if x + tw < W then tw else W - x)) :
    x = i / tw * tw := by
  subst hx
  have hcols : i < k * tw + tw := by
    by_cases h : k * tw + tw < W
    · simpa [h] using hlt
    · have : i < k * tw + (W - k * tw) := by simpa [h] using hlt
      omega
  have h1 : k ≤ i / tw := (Nat.le_div_iff_mul_le htw).mpr hle
  have h2 : i / tw < k + 1 :=
    (Nat.div_lt_iff_lt_mul htw).mpr (by rw [Nat.succ_mul]; exact hcols)
  have : k = i / tw := by omega
  rw [this]

/-- **C1.** With no bounding region, `make_tile_grid` on a `W × H` pixel
extent with positive tile size `(tw, th)` produces: (1) exactly
`ceil(W/tw) * ceil(H/th)` tile descriptors; (2) every tile window is
nonempty and lies inside the extent, clipped at the right/bottom edge;
(3) every pixel of the extent is covered by exactly one tile window
(no gaps, no overlaps); (4) the grid is exactly the row-major (top-left
first) enumeration of the tiles at `x = c*tw`, `y = r*th`; and (5) on a
handle whose `tile_grid` is empty, the resulting `ntiles` equals
`ceil(W/tw) * ceil(H/th)`. -/
theorem make_tile_grid_partition (gt : GeoTransform) (W H tw th : ℕ)
    (htw : 0 < tw) (hth : 0 < th) :
    (makeTileGridFull gt W H tw th).length =
        ((W + tw - 1) / tw) * ((H + th - 1) / th)
    ∧ (∀ t ∈ makeTileGridFull gt W H tw th,
        t.x + t.cols ≤ W ∧ t.y + t.rows ≤ H ∧ 0 < t.cols ∧ 0 < t.rows ∧
        (t.cols = tw ∨ t.x + t.cols = W) ∧ (t.rows = th ∨ t.y + t.rows = H))
    ∧ (∀ i j, i < W → j < H →
        ∃! t, t ∈ makeTileGridFull gt W H tw th ∧ covers t i j)
    ∧ makeTileGridFull gt W H tw th =
        (List.range ((H + th - 1) / th)).flatMap (fun r =>
          (List.range ((W + tw - 1) / tw)).map (fun c =>
            mkTileDesc gt 0 0 W H tw th (c * tw) (r * th)))
    ∧ (∀ (s : RasterState) (b : ℕ), s.tile_grid = [] →
        s.shape = some (b, H, W) → s.transform = some gt →
        (makeTileGridState tw th s).ntiles =
          some (((W + tw - 1) / tw) * ((H + th - 1) / th))) := by
  have hlen : (makeTileGridFull gt W H tw th).length =
      ((W + tw - 1) / tw) * ((H + th - 1) / th) := by
    rw [makeTileGridFull, makeTileGridList, length_flatMap_map,
      length_pyRange_zero, length_pyRange_zero, Nat.mul_comm]
  refine ⟨hlen, ?_, ?_, ?_, ?_⟩
  · rintro t ht
    rw [mem_makeTileGridFull] at ht
    obtain ⟨y, hy, x, hx, rfl⟩ := ht
    obtain ⟨ky, hyeq, hyH⟩ := (mem_pyRange_zero hth).mp hy
    obtain ⟨kx, hxeq, hxW⟩ := (mem_pyRange_zero htw).mp hx
    simp only [mkTileDesc]
    refine ⟨?_, ?_, ?_, ?_, ?_, ?_⟩ <;> split_ifs <;> omega
  · intro i j hi hj
    refine ⟨mkTileDesc gt 0 0 W H tw th (i / tw * tw) (j / th * th),
      ⟨?_, ?_⟩, ?_⟩
    · rw [mem_makeTileGridFull]
      exact ⟨j / th * th,
        (mem_pyRange_zero hth).mpr
          ⟨j / th, rfl, Nat.lt_of_le_of_lt (Nat.div_mul_le_self j th) hj⟩,
        i / tw * tw,
        (mem_pyRange_zero htw).mpr
          ⟨i / tw, rfl, Nat.lt_of_le_of_lt (Nat.div_mul_le_self i tw) hi⟩,
        rfl⟩
    · have hxle : i / tw * tw ≤ i := Nat.div_mul_le_self i tw
      have hyle : j / th * th ≤ j := Nat.div_mul_le_self j th
      have hxlt : i < i / tw * tw + tw := Nat.lt_div_mul_add htw
      have hylt : j < j / th * th + th := Nat.lt_div_mul_add hth
      simp only [covers, mkTileDesc]
      refine ⟨hxle, ?_, hyle, ?_⟩ <;> split_ifs <;> omega
    · rintro t' ⟨ht', hcov⟩
      rw [mem_makeTileGridFull] at ht'
      obtain ⟨y, hy, x, hx, rfl⟩ := ht'
      obtain ⟨ky, hyeq, hyH⟩ := (mem_pyRange_zero hth).mp hy
      obtain ⟨kx, hxeq, hxW⟩ := (mem_pyRange_zero htw).mp hx
      simp only [covers, mkTileDesc] at hcov
      obtain ⟨h1, h2, h3, h4⟩ := hcov
      have hxx : x = i / tw * tw := tile_of_covering htw hxeq hxW h1 h2
      have hyy : y = j / th * th := tile_of_covering hth hyeq hyH h3 h4
      rw [hxx, hyy]
  · simp [makeTileGridFull, makeTileGridList, pyRange, List.flatMap_map,
      List.map_map, Function.comp_def]
  · intro s b hempty hs ht
    simp [makeTileGridState, hs, ht, hempty, hlen]

/-- Witness for C1 at `W = 5, H = 4, tw = 2, th = 3`. -/
theorem make_tile_grid_partition_witness :
    ((0 : ℕ) < 2 ∧ (0 : ℕ) < 3) ∧
    ((makeTileGridFull sampleTransform 5 4 2 3).length =
        ((5 + 2 - 1) / 2) * ((4 + 3 - 1) / 3)
    ∧ (∀ t ∈ makeTileGridFull sampleTransform 5 4 2 3,
        t.x + t.cols ≤ 5 ∧ t.y + t.rows ≤ 4 ∧ 0 < t.cols ∧ 0 < t.rows ∧
        (t.cols = 2 ∨ t.x + t.cols = 5) ∧ (t.rows = 3 ∨ t.y + t.rows = 4))
    ∧ (∀ i j, i < 5 → j < 4 →
        ∃! t, t ∈ makeTileGridFull sampleTransform 5 4 2 3 ∧ covers t i j)
    ∧ makeTileGridFull sampleTransform 5 4 2 3 =
        (List.range ((4 + 3 - 1) / 3)).flatMap (fun r =>
          (List.range ((5 + 2 - 1) / 2)).map (fun c =>
            mkTileDesc sampleTransform 0 0 5 4 2 3 (c * 2) (r * 3)))
    ∧ (∀ (s : RasterState) (b : ℕ), s.tile_grid = [] →
        s.shape = some (b, 4, 5) → s.transform = some sampleTransform →
        (makeTileGridState 2 3 s).ntiles =
          some (((5 + 2 - 1) / 2) * ((4 + 3 - 1) / 3)))) :=
  ⟨⟨by decide, by decide⟩,
   make_tile_grid_partition sampleTransform 5 4 2 3 (by decide) (by decide)⟩

/-! ## C3: coordinate round-trip -/

/-- **C3.** World-to-pixel (`get_locations`) is the exact inverse of
pixel-to-world (`get_coords`) on integer pixel locations, for any nonzero
pixel sizes, both with corner semantics (`pixel_center = False`) and with
pixel-center semantics (`pixel_center = True`). -/
theorem coords_locations_roundtrip (x y : ℤ) (px py tx ty : ℚ)
    (hpx : px ≠ 0) (hpy : py ≠ 0) :
    getLocations ((getCoords [((x : ℚ), (y : ℚ))] (px, py) (tx, ty)
        false).map some) (px, py) (tx, ty) = [some ((x : ℚ), (y : ℚ))]
    ∧ getLocations ((getCoords [((x : ℚ), (y : ℚ))] (px, py) (tx, ty)
        true).map some) (px, py) (tx, ty) = [some ((x : ℚ), (y : ℚ))] := by
  have halfFloor : ∀ z : ℤ, ⌊(z : ℚ) + 1 / 2⌋ = z := by
    intro z
    rw [Int.floor_eq_iff]
    refine ⟨by linarith, by linarith⟩
  constructor
  · have h1 : ⌊((x : ℚ) * px + tx + 0 - tx) / px⌋ = x := by
      have h : ((x : ℚ) * px + tx + 0 - tx) / px = ((x : ℤ) : ℚ) := by
        field_simp
      rw [h, Int.floor_intCast]
    have h2 : ⌊((y : ℚ) * py + ty + 0 - ty) / py⌋ = y := by
      have h : ((y : ℚ) * py + ty + 0 - ty) / py = ((y : ℤ) : ℚ) := by
        field_simp
      rw [h, Int.floor_intCast]
    simp only [getCoords, getCoordsXY, getLocations, List.map_cons,
      List.map_nil]
    rw [if_neg (by decide : ¬ ((false : Bool) = true))]
    dsimp only
    rw [h1, h2]
  · have h1 : ⌊((x : ℚ) * px + tx + px / 2 - tx) / px⌋ = x := by
      have h : ((x : ℚ) * px + tx + px / 2 - tx) / px = (x : ℚ) + 1 / 2 := by
        field_simp; ring
      rw [h, halfFloor]
    have h2 : ⌊((y : ℚ) * py + ty + py / 2 - ty) / py⌋ = y := by
      have h : ((y : ℚ) * py + ty + py / 2 - ty) / py = (y : ℚ) + 1 / 2 := by
        field_simp; ring
      rw [h, halfFloor]
    simp only [getCoords, getCoordsXY, getLocations, List.map_cons,
      List.map_nil]
    rw [if_pos trivial]
    dsimp only
    rw [h1, h2]

/-- Witness for C3 at `(x, y) = (7, -3)`, pixel size `(30, -30)`,
tie point `(443000, 4560000)`. -/
theorem coords_locations_roundtrip_witness :
    ((30 : ℚ) ≠ 0 ∧ (-30 : ℚ) ≠ 0) ∧
    (getLocations ((getCoords [((7 : ℚ), ((-3 : ℤ) : ℚ))] (30, -30)
        (443000, 4560000) false).map some) (30, -30) (443000, 4560000) =
        [some ((7 : ℚ), ((-3 : ℤ) : ℚ))]
    ∧ getLocations ((getCoords [((7 : ℚ), ((-3 : ℤ) : ℚ))] (30, -30)
        (443000, 4560000) true).map some) (30, -30) (443000, 4560000) =
        [some ((7 : ℚ), ((-3 : ℤ) : ℚ))]) :=
  ⟨⟨by norm_num, by norm_num⟩, by
    have h := coords_locations_roundtrip 7 (-3) 30 (-30) 443000 4560000
      (by norm_num) (by norm_num)
    simpa using h⟩

/-! ## C2: edge-buffered window arithmetic of `get_tile` -/

/-- **C2** (evaluation at the failing inputs).  The tile `(85, 36, 5, 12)`
belongs to the unbounded `5 × 12` grid of a 100×100 raster and touches no
raster edge, with at least 5 pixels of room on every side; yet with
`edge_buffer = 5` the window computed by `get_tile` is
`(80, 31, 15, 26)` — a buffer of height 26, not `rows + 2*5 = 22`
(the x-deficit accounting is applied to the y-size because `get_tile`
unpacks `block_coords` as `(x, y, rows, cols)` against its own docstring).
Moreover the right-edge tile `(90, 50, 10, 10)` with `edge_buffer = 1`
yields the window `(89, 49, 12, 12)`, which extends to column
`89 + 12 = 101 > 100`, past the raster extent. -/
theorem get_tile_edge_buffer_bug :
    mkTileDesc sampleTransform 0 0 100 100 5 12 85 36 ∈
      makeTileGridFull sampleTransform 100 100 5 12
    ∧ (mkTileDesc sampleTransform 0 0 100 100 5 12 85 36).x = 85
    ∧ (mkTileDesc sampleTransform 0 0 100 100 5 12 85 36).y = 36
    ∧ (mkTileDesc sampleTransform 0 0 100 100 5 12 85 36).cols = 5
    ∧ (mkTileDesc sampleTransform 0 0 100 100 5 12 85 36).rows = 12
    ∧ ((0:ℕ) < 85 ∧ (0:ℕ) < 36 ∧ 85 + 5 + 5 ≤ 100 ∧ 36 + 12 + 5 ≤ 100
        ∧ (5:ℕ) ≤ 85 ∧ (5:ℕ) ≤ 36)
    ∧ getTileWindow 100 100 (85, 36, 5, 12) 5 = (80, 31, 15, 26)
    ∧ (26 : ℤ) ≠ 12 + 2 * 5
    ∧ getTileWindow 100 100 (90, 50, 10, 10) 1 = (89, 49, 12, 12)
    ∧ (100 : ℤ) < 89 + 12 := by
  refine ⟨?_, by decide, by decide, by decide, by decide, by decide,
    by decide, by decide, by decide, by decide⟩
  exact mem_makeTileGridFull.mpr
    ⟨36, (mem_pyRange_zero (by decide)).mpr ⟨3, by decide, by decide⟩,
     85, (mem_pyRange_zero (by decide)).mpr ⟨17, by decide, by decide⟩, rfl⟩

/-! ## C4: non-finite sanitization in `get_tile` -/

/-- **C4.**  For a multi-band request with `finite_only`, every value of the
read window is the raw collaborator read if finite, else the resolved
`nan_replacement`; a single-band request returns the raw read for any
`finite_only`; and the replacement defaults to the declared no-data value,
or `0` when none is declared. -/
theorem get_tile_sanitization (ras : SrcRaster) (bands : Option (List ℕ))
    (block_coords : ℤ × ℤ × ℤ × ℤ) (edge_buffer : ℤ)
    (nan_replacement : Option Val)
    (hmulti : 1 < (getTileBands ras bands).length) :
    (∀ jj i j,
        getTileVals ras bands block_coords true edge_buffer nan_replacement
            jj i j =
          if (rawTileVal ras bands block_coords edge_buffer jj i j).isFinite
          then rawTileVal ras bands block_coords edge_buffer jj i j
          else getTileNanReplacement ras nan_replacement)
    ∧ (∀ bands1 : Option (List ℕ), (getTileBands ras bands1).length = 1 →
        ∀ (finite_only : Bool) jj i j,
          getTileVals ras bands1 block_coords finite_only edge_buffer
              nan_replacement jj i j =
            rawTileVal ras bands1 block_coords edge_buffer 0 i j)
    ∧ (∀ nd, ras.nodatavalue = some nd →
        getTileNanReplacement ras none = nd)
    ∧ (ras.nodatavalue = none → getTileNanReplacement ras none = .q 0) := by
  refine ⟨?_, ?_, ?_, ?_⟩
  · intro jj i j
    simp only [getTileVals]
    rw [if_neg (by omega), if_pos trivial]
    cases rawTileVal ras bands block_coords edge_buffer jj i j <;>
      simp [sanitizeVal, Val.isnan, Val.isinf, Val.isFinite]
  · intro bands1 h1 finite_only jj i j
    simp only [getTileVals]
    rw [if_pos h1]
  · intro nd h
    simp [getTileNanReplacement, h]
  · intro h
    simp [getTileNanReplacement, h]

/-- Witness for C4 on `witnessRaster` (2 bands). -/
theorem get_tile_sanitization_witness :
    1 < (getTileBands witnessRaster none).length ∧
    ((∀ jj i j,
        getTileVals witnessRaster none (0, 0, 2, 2) true 0 none jj i j =
          if (rawTileVal witnessRaster none (0, 0, 2, 2) 0 jj i j).isFinite
          then rawTileVal witnessRaster none (0, 0, 2, 2) 0 jj i j
          else getTileNanReplacement witnessRaster none)
    ∧ (∀ bands1 : Option (List ℕ),
        (getTileBands witnessRaster bands1).length = 1 →
        ∀ (finite_only : Bool) jj i j,
          getTileVals witnessRaster bands1 (0, 0, 2, 2) finite_only 0 none
              jj i j =
            rawTileVal witnessRaster bands1 (0, 0, 2, 2) 0 0 i j)
    ∧ (∀ nd, witnessRaster.nodatavalue = some nd →
        getTileNanReplacement witnessRaster none = nd)
    ∧ (witnessRaster.nodatavalue = none →
        getTileNanReplacement witnessRaster none = .q 0)) :=
  ⟨by decide, get_tile_sanitization witnessRaster none (0, 0, 2, 2) 0 none
    (by decide)⟩

/-! ## C5: composite mean reduction -/

theorem valSum_map_q (l : List ℚ) : valSum (l.map Val.q) = Val.q l.sum := by
  induction l with
  | nil => rfl
  | cons x xs ih =>
      show Val.add (Val.q x) (valSum (xs.map Val.q)) = Val.q (x :: xs).sum
      rw [ih, List.sum_cons]
      rfl

theorem filter_map_q (l : List ℚ) (nd : ℚ) :
    (l.map Val.q).filter (fun v => pyNe v (Val.q nd)) =
      (l.filter (fun v => v ≠ nd)).map Val.q := by
  have hpy : ∀ x : ℚ, pyNe (Val.q x) (Val.q nd) = decide (x ≠ nd) := by
    intro x; rfl
  induction l with
  | nil => rfl
  | cons x xs ih =>
      simp only [List.map_cons, List.filter_cons, hpy]
      by_cases h : x = nd
      · simp [h, ih]
      · simp [h, ih]

/-- **C5** (counterexample).  At a pixel where every layer holds the no-data
value, `composite(composite_type='mean')` produces `nan` (`np.mean` of an
empty selection), not the declared no-data value. -/
theorem composite_mean_all_nodata_counterexample :
    compositePixel "mean" (Val.q 5) [.q 5, .q 5, .q 5] = .ok Val.nan
    ∧ Val.nan ≠ Val.q 5 := ⟨rfl, by decide⟩

/-- **C5** (amended).  The `mean` composite at one pixel equals the exact
mean of the per-layer values excluding those equal to the no-data value;
when every layer holds the no-data value the result is `nan` — not the
declared no-data value — and no exception is raised (the dispatch returns a
value). -/
theorem composite_mean_excludes_nodata (nodata : ℚ) (stack : List ℚ) :
    ((stack.filter (fun v => v ≠ nodata)) ≠ [] →
      compositePixel "mean" (Val.q nodata) (stack.map Val.q) =
        .ok (Val.q ((stack.filter (fun v => v ≠ nodata)).sum /
              ((stack.filter (fun v => v ≠ nodata)).length : ℚ))))
    ∧ ((stack.filter (fun v => v ≠ nodata)) = [] →
      compositePixel "mean" (Val.q nodata) (stack.map Val.q) =
        .ok Val.nan) := by
  have hf := filter_map_q stack nodata
  constructor
  · intro h
    have hne : (stack.filter (fun v => v ≠ nodata)).length ≠ 0 := by
      simpa [List.length_eq_zero] using h
    show Except.ok
        (npMean ((stack.map Val.q).filter (fun v => pyNe v (Val.q nodata)))) = _
    rw [hf]
    unfold npMean
    rw [valSum_map_q, List.length_map]
    unfold Val.divNat
    rw [if_neg hne]
  · intro h
    show Except.ok
        (npMean ((stack.map Val.q).filter (fun v => pyNe v (Val.q nodata)))) = _
    rw [hf, h]
    rfl

/-- Witness for C5 (amended) at stacks `[1, 5, 3]` with no-data `5` and
`[7, 7]` with no-data `7`. -/
theorem composite_mean_excludes_nodata_witness :
    (([1, 5, 3] : List ℚ).filter (fun v => v ≠ 5) ≠ [] ∧
      compositePixel "mean" (Val.q 5) (([1, 5, 3] : List ℚ).map Val.q) =
        .ok (Val.q ((([1, 5, 3] : List ℚ).filter (fun v => v ≠ 5)).sum /
              ((([1, 5, 3] : List ℚ).filter (fun v => v ≠ 5)).length : ℚ))))
    ∧ (([7, 7] : List ℚ).filter (fun v => v ≠ 7) = [] ∧
        compositePixel "mean" (Val.q 7) (([7, 7] : List ℚ).map Val.q) =
          .ok Val.nan) :=
  ⟨⟨by decide, (composite_mean_excludes_nodata 5 [1, 5, 3]).1 (by decide)⟩,
   ⟨by decide, (composite_mean_excludes_nodata 7 [7, 7]).2 (by decide)⟩⟩

/-! ## C6: unknown-reducer asymmetry -/

/-- **C6** (evaluation at the failing input).  An unknown reducer keyword is
fatal for composite reduction (`ValueError`), and `extract_geom` with
`reducer='bogus'` leaves the accumulated values identical to
`reducer=None`; but over a two-tile grid it records **two** warnings — one
per tile, because the warning branch sits inside the tile loop — not
exactly one. -/
theorem unsupported_reducer_asymmetry :
    compositePixel "bogus" (Val.q 0) [.q 1, .q 2] =
      .error "Unknown composite option"
    ∧ (extractGeomAccum 1 twoTileData (some "bogus")).1 =
        (extractGeomAccum 1 twoTileData none).1
    ∧ (extractGeomAccum 1 twoTileData none).2 = 0
    ∧ (extractGeomAccum 1 twoTileData (some "bogus")).2 = 2
    ∧ (2 : ℕ) ≠ 1 := ⟨rfl, rfl, rfl, rfl, by decide⟩

/-! ## C7: reducer application once vs. per tile -/

/-- **C7** (evaluation at the failing input).  With `reducer='mean'` and a
geometry whose rows all arrive on the first of two tiles, `extract_geom`
collapses the accumulated values at the end of *every* tile iteration: the
first pass turns the rows `[[1,3],[5,7]]` into the vector `[3,5]`, and the
second pass collapses that vector again into the bare scalar `4` — whereas
reducing exactly once after all tiles (the spec's step 6, modelled by
`specExtractReduceOnce`) yields the vector `[3,5]`. -/
theorem extract_reducer_inside_tile_loop :
    extractGeomAccum 1 meanTileData (some "mean") =
      ([{ values := .scalar (.q 4), coordinates := .scalar .nan }], 0)
    ∧ specExtractReduceOnce 1 meanTileData (some "mean") =
      ([{ values := .vec [.q 3, .q 5], coordinates := .scalar .nan }], 0)
    ∧ Acc.scalar (.q 4) ≠ Acc.vec [.q 3, .q 5] := by
  refine ⟨?_, ?_, by decide⟩ <;>
    norm_num [extractGeomAccum, specExtractReduceOnce, extractStep,
      tileReducerPass, applyReducer, meanTileData, Acc.append, npMeanAxis0,
      rectangular, colwise, column, npMean, valSum, Val.add, Val.divNat,
      strContains, charsContain, charsStartWith, List.range_succ,
      List.cons_ne_nil]

/-! ## C8: band selection by name vs. index -/

/-- **C8** (evaluation at the failing input).  On a raster with band names
`["red", "green"]`, selecting by the names resolves to the raw 0-based
positions `[0, 1]`, while selecting by the corresponding zero-based indices
resolves to the 1-based GDAL bands `[1, 2]` — so the two calls do not read
the same bands, and the name path even produces the invalid GDAL band 0.
An unresolvable name fails with a lookup error. -/
theorem band_name_resolution_off_by_one :
    getNextTileBands 2 ["red", "green"] (.strsArg ["red", "green"]) =
      .ok [0, 1]
    ∧ getNextTileBands 2 ["red", "green"] (.numsArg [0, 1]) = .ok [1, 2]
    ∧ (Except.ok [0, 1] : Except String (List ℤ)) ≠ .ok [1, 2]
    ∧ validGdalBand 2 0 = false
    ∧ getNextTileBands 2 ["red", "green"] (.strsArg ["bogus"]) =
        .error "ValueError: not in list" := by
  refine ⟨rfl, rfl, ?_, rfl, rfl⟩
  intro h
  exact absurd (by injection h) (by decide)

/-! ## C9: initialization and immutability -/

/-- **C9** (counterexample).  Re-initializing an already-initialized handle
is *not* an error: a second `initialize` on the same datasource succeeds
(there is also no reset method on the class). -/
theorem reinitialize_succeeds :
    ((initializeRaster (some sampleMeta) freshRaster).bind
        (fun s1 => initializeRaster (some sampleMeta) s1)).isOk = true
    ∧ (initializeRaster (some sampleMeta) freshRaster).map
        (fun s1 => s1.init) = .ok true := ⟨rfl, rfl⟩

/-- **C9** (amended).  `initialize` sets `init = True` and loads shape and
transform from the datasource; calling it again on the already-initialized
handle is permitted and, for the unchanged datasource, is idempotent — it
re-reads the same shape and transform.  Building tile grids never touches
shape or transform. -/
theorem initialize_reread_idempotent (m : SrcMeta) (s s1 : RasterState)
    (h : initializeRaster (some m) s = .ok s1) :
    s1.init = true
    ∧ initializeRaster (some m) s1 = .ok s1
    ∧ ∀ tw th : ℕ,
        (makeTileGridState tw th s1).shape = s1.shape
        ∧ (makeTileGridState tw th s1).transform = s1.transform := by
  simp only [initializeRaster] at h
  injection h with h
  subst h
  exact ⟨rfl, rfl, fun tw th => ⟨rfl, rfl⟩⟩

/-- Witness for C9 (amended) at `sampleMeta`. -/
theorem initialize_reread_idempotent_witness :
    initializeRaster (some sampleMeta) freshRaster = .ok sampleInitialized
    ∧ (sampleInitialized.init = true
       ∧ initializeRaster (some sampleMeta) sampleInitialized =
           .ok sampleInitialized
       ∧ ∀ tw th : ℕ,
           (makeTileGridState tw th sampleInitialized).shape =
               sampleInitialized.shape
           ∧ (makeTileGridState tw th sampleInitialized).transform =
               sampleInitialized.transform) :=
  ⟨rfl,
   initialize_reread_idempotent sampleMeta freshRaster sampleInitialized rfl⟩

/-! ## C10: `make_tile_grid` appends to the existing grid -/

/-- **C10.**  `make_tile_grid` appends to `tile_grid` without clearing it:
after a second call the grid holds the descriptors of both builds in order,
and `ntiles` is the combined count; in particular, starting from an empty
grid, two builds leave `ntiles` equal to the sum of the two builds'
counts. -/
theorem make_tile_grid_appends (s : RasterState) (b H W : ℕ)
    (gt : GeoTransform) (tw th tw' th' : ℕ)
    (hs : s.shape = some (b, H, W)) (ht : s.transform = some gt) :
    (makeTileGridState tw' th' (makeTileGridState tw th s)).tile_grid =
        s.tile_grid ++ makeTileGridFull gt W H tw th
          ++ makeTileGridFull gt W H tw' th'
    ∧ (makeTileGridState tw' th' (makeTileGridState tw th s)).ntiles =
        some (s.tile_grid.length + ((makeTileGridFull gt W H tw th).length
          + (makeTileGridFull gt W H tw' th').length))
    ∧ (s.tile_grid = [] →
        (makeTileGridState tw' th' (makeTileGridState tw th s)).ntiles =
          some ((makeTileGridFull gt W H tw th).length
            + (makeTileGridFull gt W H tw' th').length)) := by
  refine ⟨?_, ?_, ?_⟩
  · simp [makeTileGridState, hs, ht, List.append_assoc]
  · simp [makeTileGridState, hs, ht, List.append_assoc, Nat.add_assoc]
  · intro h
    simp [makeTileGridState, hs, ht, h]

/-- Witness for C10 on the initialized sample handle with tile sizes
`60 × 60` then `30 × 30`. -/
theorem make_tile_grid_appends_witness :
    (sampleInitialized.shape = some (2, 100, 100)
      ∧ sampleInitialized.transform = some sampleTransform) ∧
    ((makeTileGridState 30 30 (makeTileGridState 60 60
          sampleInitialized)).tile_grid =
        sampleInitialized.tile_grid
          ++ makeTileGridFull sampleTransform 100 100 60 60
          ++ makeTileGridFull sampleTransform 100 100 30 30
    ∧ (makeTileGridState 30 30 (makeTileGridState 60 60
          sampleInitialized)).ntiles =
        some (sampleInitialized.tile_grid.length
          + ((makeTileGridFull sampleTransform 100 100 60 60).length
            + (makeTileGridFull sampleTransform 100 100 30 30).length))
    ∧ (sampleInitialized.tile_grid = [] →
        (makeTileGridState 30 30 (makeTileGridState 60 60
            sampleInitialized)).ntiles =
          some ((makeTileGridFull sampleTransform 100 100 60 60).length
            + (makeTileGridFull sampleTransform 100 100 30 30).length))) :=
  ⟨⟨rfl, rfl⟩,
   make_tile_grid_appends sampleInitialized 2 100 100 sampleTransform
     60 60 30 30 rfl rfl⟩

end Geosoup
